/-
Verification of flow2api's token-statistics, configuration, caching and
startup-wiring logic against its natural-language specification.

The Python sources are shallowly embedded: each pure fragment becomes a
Lean function over explicit state; database rows become structures;
days are Nat (days since an arbitrary epoch); SQL NULL becomes Option.
-/
import Mathlib

namespace Flow2API

/-! ### Token statistics (`src/core/db/postgres.py`, table `token_stats`)

One row of the `token_stats` table.  Timestamp columns (`last_success_at`,
`last_error_at`) are not modelled: no claim depends on them.  `today_date`
is `Option Nat` because the column is nullable (fresh rows have NULL). -/

structure TokenStats where
  image_count : Nat
  video_count : Nat
  success_count : Nat
  error_count : Nat
  today_image_count : Nat
  today_video_count : Nat
  today_error_count : Nat
  today_date : Option Nat
  consecutive_error_count : Nat
  deriving Repr, DecidableEq

/-- A fresh `token_stats` row, as inserted by `add_token` (all counters at
their column defaults, `today_date` NULL). -/
def freshStats : TokenStats :=
  { image_count := 0, video_count := 0, success_count := 0, error_count := 0
  , today_image_count := 0, today_video_count := 0, today_error_count := 0
  , today_date := none, consecutive_error_count := 0 }

/-- `PostgresAdapter.increment_image_count`: `today` is the value of
`date.today()` read at the start of the call; the row is updated inside one
transaction.  The branch condition is Python's `row[0] != today` (NULL
compares unequal to any date). -/
def increment_image_count (today : Nat) (s : TokenStats) : TokenStats :=
  if s.today_date ≠ some today then
    { s with image_count := s.image_count + 1
           , today_image_count := 1
           , today_date := some today }
  else
    { s with image_count := s.image_count + 1
           , today_image_count := s.today_image_count + 1
           , today_date := some today }

/-- `PostgresAdapter.increment_video_count`. -/
def increment_video_count (today : Nat) (s : TokenStats) : TokenStats :=
  if s.today_date ≠ some today then
    { s with video_count := s.video_count + 1
           , today_video_count := 1
           , today_date := some today }
  else
    { s with video_count := s.video_count + 1
           , today_video_count := s.today_video_count + 1
           , today_date := some today }

/-- `PostgresAdapter.increment_error_count`: bumps the lifetime and
consecutive error counters in both branches; only `today_error_count` is
subject to the daily reset. -/
def increment_error_count (today : Nat) (s : TokenStats) : TokenStats :=
  if s.today_date ≠ some today then
    { s with error_count := s.error_count + 1
           , consecutive_error_count := s.consecutive_error_count + 1
           , today_error_count := 1
           , today_date := some today }
  else
    { s with error_count := s.error_count + 1
           , consecutive_error_count := s.consecutive_error_count + 1
           , today_error_count := s.today_error_count + 1
           , today_date := some today }

/-- `PostgresAdapter.reset_error_count`. -/
def reset_error_count (s : TokenStats) : TokenStats :=
  { s with consecutive_error_count := 0 }

/-! #### Traces of increment operations (for the daily-counter claims) -/

/-- Which of the three per-token statistics an increment call touches,
mirroring `increment_token_stats`'s `stat_type` argument. -/
inductive StatKind where
  | image
  | video
  | error
  deriving Repr, DecidableEq

/-- Dispatch of `increment_token_stats` on `stat_type`, with the day the
call observes made explicit. -/
def incrementStat (k : StatKind) (today : Nat) (s : TokenStats) : TokenStats :=
  match k with
  | .image => increment_image_count today s
  | .video => increment_video_count today s
  | .error => increment_error_count today s

/-- Run a serialized history of increment calls, each tagged with the day
`date.today()` returned during it. -/
def runIncrements (tr : List (StatKind × Nat)) (s : TokenStats) : TokenStats :=
  match tr with
  | [] => s
  | (k, d) :: rest => runIncrements rest (incrementStat k d s)

/-- The daily counter that belongs to a given statistic kind. -/
def todayCounter (k : StatKind) (s : TokenStats) : Nat :=
  match k with
  | .image => s.today_image_count
  | .video => s.today_video_count
  | .error => s.today_error_count

/-- Number of increments of kind `k` a history performs on day `d`. -/
def countOnDay (k : StatKind) (d : Nat) (tr : List (StatKind × Nat)) : Nat :=
  tr.countP (fun e => e.1 = k ∧ e.2 = d)

/-- The state either already carries today's date, or its daily counters
are still untouched (a fresh row, or one whose counters were never bumped
since the last reset to defaults).  Preserved by same-day increments. -/
def dailyReady (d : Nat) (s : TokenStats) : Prop :=
  s.today_date = some d ∨
    (s.today_image_count = 0 ∧ s.today_video_count = 0 ∧ s.today_error_count = 0)

theorem incrementStat_todayCounter_same (k k' : StatKind) (d : Nat)
    (s : TokenStats) (hs : dailyReady d s) :
    todayCounter k' (incrementStat k d s) =
      todayCounter k' s + (if k' = k then 1 else 0) ∧
    (incrementStat k d s).today_date = some d := by
  rcases hs with h | ⟨h1, h2, h3⟩ <;>
    cases k <;> cases k' <;>
      simp_all [incrementStat, increment_image_count, increment_video_count,
        increment_error_count, todayCounter]

theorem runIncrements_todayCounter_sameDay (tr : List (StatKind × Nat))
    (d : Nat) (hd : ∀ e ∈ tr, e.2 = d) (s : TokenStats) (hs : dailyReady d s)
    (k : StatKind) :
    todayCounter k (runIncrements tr s) = todayCounter k s + countOnDay k d tr := by
  induction tr generalizing s with
  | nil => simp [runIncrements, countOnDay]
  | cons e rest ih =>
    obtain ⟨k', d'⟩ := e
    have hde : d' = d := hd (k', d') (List.mem_cons_self _ _)
    subst hde
    have hstep := incrementStat_todayCounter_same k' k d' s hs
    have hrest : ∀ e ∈ rest, e.2 = d' := fun e he => hd e (List.mem_cons_of_mem _ he)
    have hready : dailyReady d' (incrementStat k' d' s) := Or.inl hstep.2
    rw [runIncrements, ih hrest _ hready, hstep.1]
    have hcons : countOnDay k d' ((k', d') :: rest) =
        countOnDay k d' rest + (if k = k' then 1 else 0) := by
      by_cases hk : k = k' <;>
        simp [countOnDay, List.countP_cons, hk, eq_comm]
    rw [hcons]
    ring

/-- C3. Recording a failure bumps `consecutive_error_count` by exactly one
(whether or not the day rolled over), and recording a success resets it
to zero. -/
theorem consecutive_error_count_step (today : Nat) (s : TokenStats) :
    (increment_error_count today s).consecutive_error_count =
      s.consecutive_error_count + 1 ∧
    (reset_error_count s).consecutive_error_count = 0 := by
  constructor
  · unfold increment_error_count
    split <;> rfl
  · rfl

/-- C4 counterexample. A history that crosses a day boundary with mixed
statistic kinds: one video increment on day 0, then an image and a video
increment on day 1.  The image increment refreshes the shared `today_date`
without clearing `today_video_count`, so the day-1 video increment takes the
stale day-0 value to 2, while only one video increment happened on day 1. -/
theorem daily_counter_cross_day_counterexample :
    ¬ (todayCounter .video
          (runIncrements [(.video, 0), (.image, 1), (.video, 1)] freshStats) =
        countOnDay .video 1 [(.video, 0), (.image, 1), (.video, 1)]) := by
  decide

/-- C4 (amended). Each increment call unconditionally bumps its lifetime
counter and sets the stored day to today, and sets its daily counter to 1
when the stored day differs from today, incrementing it otherwise; the
derived consequence — each daily counter equals the number of increments of
its kind performed on the current day — holds for every interleaving of the
three increment operations that all observe the same calendar day, starting
from a fresh stats row.  (Across a day boundary an increment of one kind
refreshes the shared stored day without clearing the other kinds' daily
counters, so the consequence can fail; see the counterexample.) -/
theorem daily_counters_correct (today : Nat) (s : TokenStats) :
    ((increment_image_count today s).image_count = s.image_count + 1 ∧
      (increment_video_count today s).video_count = s.video_count + 1 ∧
      (increment_error_count today s).error_count = s.error_count + 1) ∧
    (∀ k : StatKind,
      todayCounter k (incrementStat k today s) =
        (if s.today_date ≠ some today then 1 else todayCounter k s + 1) ∧
      (incrementStat k today s).today_date = some today) ∧
    (∀ (tr : List (StatKind × Nat)), (∀ e ∈ tr, e.2 = today) →
      ∀ k : StatKind,
        todayCounter k (runIncrements tr freshStats) = countOnDay k today tr) := by
  refine ⟨⟨?_, ?_, ?_⟩, ?_, ?_⟩
  · unfold increment_image_count; split <;> rfl
  · unfold increment_video_count; split <;> rfl
  · unfold increment_error_count; split <;> rfl
  · intro k
    cases k <;>
      · constructor
        · simp only [incrementStat, increment_image_count, increment_video_count,
            increment_error_count, todayCounter]
          split <;> rfl
        · simp only [incrementStat, increment_image_count, increment_video_count,
            increment_error_count]
          split <;> rfl
  · intro tr htr k
    have hfresh : dailyReady today freshStats := Or.inr ⟨rfl, rfl, rfl⟩
    have := runIncrements_todayCounter_sameDay tr today htr freshStats hfresh k
    rw [this]
    cases k <;> simp [todayCounter, freshStats]

/-- Witness for the amended C4 theorem at a concrete same-day history. -/
theorem daily_counters_correct_witness :
    todayCounter .image
        (runIncrements [(.image, 5), (.error, 5), (.image, 5)] freshStats) =
      countOnDay .image 5 [(.image, 5), (.error, 5), (.image, 5)] :=
  (daily_counters_correct 5 freshStats).2.2
    [(.image, 5), (.error, 5), (.image, 5)] (by decide) .image

/-! ### Dynamic row updates (`update_token`, `update_task`)

A stored row is a map from column name to value, `none` standing for SQL
NULL.  The keyword arguments of a call are an association list with
distinct keys (Python `**kwargs`), each value optional (`None` skips the
column). -/

inductive Value where
  | str (s : String)
  | int (n : Int)
  | bool (b : Bool)
  | strList (l : List String)
  deriving Repr, DecidableEq

/-- A row of the `tokens` or `tasks` table: column name to stored value,
`none` for NULL. -/
def Row : Type := String → Option Value

/-- `json.dumps` applied to a list of URL strings (string escaping is not
modelled; no claim depends on the encoding, only on the result being a
non-NULL string value). -/
def jsonDumpsList (l : List String) : String :=
  "[" ++ String.intercalate ", " (l.map (fun s => "\x22" ++ s ++ "\x22")) ++ "]"

/-- First value bound to column `c` in a built `updates` list. -/
def findUpdate (c : String) : List (String × Value) → Option Value
  | [] => none
  | (k, v) :: rest => if k = c then some v else findUpdate c rest

/-- First (optional) value bound to key `c` among the keyword arguments. -/
def kwLookup (c : String) : List (String × Option Value) → Option (Option Value)
  | [] => none
  | (k, v) :: rest => if k = c then some v else kwLookup c rest

/-- The shared loop of `update_token` / `update_task`: keep only keyword
arguments whose value is not `None`, transforming each kept value (the
identity for `update_token`; `update_task` JSON-encodes `result_urls`
lists), then issue a single UPDATE on exactly those columns — or no query
at all when the list is empty. -/
def updateWhereNotNone (transform : String → Value → Value)
    (kwargs : List (String × Option Value)) (row : Row) : Row :=
  let updates := kwargs.filterMap (fun e => e.2.map (fun v => (e.1, transform e.1 v)))
  fun c =>
    match findUpdate c updates with
    | some v => some v
    | none => row c

/-- `PostgresAdapter.update_token(token_id, **kwargs)` restricted to one
row: skips `None` values, stores the rest unchanged. -/
def update_token (kwargs : List (String × Option Value)) (row : Row) : Row :=
  updateWhereNotNone (fun _ v => v) kwargs row

/-- Value transformation in `update_task`'s loop: `result_urls` lists are
JSON-encoded, everything else is stored as supplied. -/
def taskValue (k : String) (v : Value) : Value :=
  match k, v with
  | "result_urls", .strList l => .str (jsonDumpsList l)
  | _, _ => v

/-- `PostgresAdapter.update_task(task_id, **kwargs)` restricted to one
row. -/
def update_task (kwargs : List (String × Option Value)) (row : Row) : Row :=
  updateWhereNotNone taskValue kwargs row

theorem findUpdate_collect_of_not_mem (f : String → Value → Value)
    (kwargs : List (String × Option Value)) (c : String)
    (hc : c ∉ kwargs.map Prod.fst) :
    findUpdate c (kwargs.filterMap (fun e => e.2.map (fun v => (e.1, f e.1 v)))) =
      none := by
  induction kwargs with
  | nil => rfl
  | cons e rest ih =>
    obtain ⟨k, v⟩ := e
    have hkc : k ≠ c := by
      intro h
      exact hc (by simp [h])
    have hrest : c ∉ rest.map Prod.fst := fun h => hc (List.mem_cons_of_mem _ h)
    cases v with
    | none => simpa [List.filterMap_cons] using ih hrest
    | some w =>
      simp only [List.filterMap_cons, Option.map_some]
      simp only [findUpdate, if_neg hkc]
      exact ih hrest

theorem findUpdate_collect_of_none (f : String → Value → Value)
    (kwargs : List (String × Option Value)) (c : String)
    (hnd : (kwargs.map Prod.fst).Nodup) (hv : kwLookup c kwargs = some none) :
    findUpdate c (kwargs.filterMap (fun e => e.2.map (fun v => (e.1, f e.1 v)))) =
      none := by
  induction kwargs with
  | nil => simp [kwLookup] at hv
  | cons e rest ih =>
    obtain ⟨k, v⟩ := e
    rw [kwLookup] at hv
    by_cases hk : k = c
    · rw [if_pos hk] at hv
      obtain rfl : v = none := by injection hv
      subst hk
      have hc : k ∉ rest.map Prod.fst := by
        simpa using (List.nodup_cons.mp hnd).1
      simpa [List.filterMap_cons] using
        findUpdate_collect_of_not_mem f rest k hc
    · rw [if_neg hk] at hv
      have hnd' : (rest.map Prod.fst).Nodup := by
        simpa using (List.nodup_cons.mp (by simpa using hnd)).2
      cases v with
      | none => simpa [List.filterMap_cons] using ih hnd' hv
      | some w =>
        simp only [List.filterMap_cons, Option.map_some]
        simp only [findUpdate, if_neg hk]
        exact ih hnd' hv

/-- C8. Frame property of the dynamic updates: for both `update_token` and
`update_task`, (i) a column whose keyword argument is absent, or supplied
as `None`, keeps its stored value; (ii) neither operation can turn a
non-NULL column into NULL; (iii) a call whose supplied values are all
`None` leaves the row unchanged. -/
theorem update_skips_none_frame (kwargs : List (String × Option Value))
    (row : Row) (c : String) (hnd : (kwargs.map Prod.fst).Nodup)
    (habsent : c ∉ kwargs.map Prod.fst ∨ kwLookup c kwargs = some none) :
    (update_token kwargs row c = row c ∧ update_task kwargs row c = row c) ∧
    (∀ c', update_token kwargs row c' = none → row c' = none) ∧
    (∀ c', update_task kwargs row c' = none → row c' = none) ∧
    ((∀ e ∈ kwargs, e.2 = none) →
      ∀ c', update_token kwargs row c' = row c' ∧
        update_task kwargs row c' = row c') := by
  have hunchanged : ∀ f : String → Value → Value,
      updateWhereNotNone f kwargs row c = row c := by
    intro f
    rcases habsent with h | h
    · rw [updateWhereNotNone]
      simp only [findUpdate_collect_of_not_mem f kwargs c h]
    · rw [updateWhereNotNone]
      simp only [findUpdate_collect_of_none f kwargs c hnd h]
  have hnonull : ∀ (f : String → Value → Value) (c' : String),
      updateWhereNotNone f kwargs row c' = none → row c' = none := by
    intro f c'
    rw [updateWhereNotNone]
    cases hfind : findUpdate c'
        (kwargs.filterMap (fun e => e.2.map (fun v => (e.1, f e.1 v)))) with
    | some v => simp [hfind]
    | none => simp [hfind]
  have hallnone : ∀ f : String → Value → Value, (∀ e ∈ kwargs, e.2 = none) →
      ∀ c', updateWhereNotNone f kwargs row c' = row c' := by
    intro f hall c'
    have hempty : kwargs.filterMap (fun e => e.2.map (fun v => (e.1, f e.1 v))) = [] := by
      rw [List.filterMap_eq_nil_iff]
      intro e he
      rw [hall e he]
      rfl
    rw [updateWhereNotNone]
    simp only [hempty]
    rfl
  exact ⟨⟨hunchanged _, hunchanged _⟩, hnonull _, hnonull _,
    fun hall c' => ⟨hallnone _ hall c', hallnone _ hall c'⟩⟩

/-- Witness for the C8 theorem on a concrete call: updating a token row
with `is_active` absent and `name = None` touches neither column. -/
theorem update_skips_none_frame_witness :
    update_token [("name", none), ("credits", some (.int 7))]
        (fun c => if c = "is_active" then some (.bool true) else none)
        "is_active" = some (.bool true) := by
  have h := update_skips_none_frame
    [("name", none), ("credits", some (.int 7))]
    (fun c => if c = "is_active" then some (.bool true) else none)
    "is_active" (by decide) (Or.inl (by decide))
  rw [h.1.1]
  rfl

/-! ### The two coexisting `Settings` classes

`src/core/config.py` and `src/core/settings.py` each define a
pydantic-settings class named `Settings`.  With no environment variables
set and no `config/setting.toml` present, every settings source other than
the field defaults contributes nothing, so the constructed object carries
exactly the `Field(default=...)` literals.  Each class is embedded as a
structure whose field defaults are those literals (floats are represented
as rationals; `Optional[str]` fields with default `""` become
`Option String` with default `some ""`). -/

namespace ConfigModule

/-- `class Settings` of `src/core/config.py` (lower-case field names). -/
structure Settings where
  api_key : String := "han1234"
  admin_username : String := "admin"
  admin_password : String := "admin"
  flow_labs_base_url : String := "https://labs.google/fx/api"
  flow_api_base_url : String := "https://aisandbox-pa.googleapis.com/v1"
  flow_timeout : Nat := 120
  flow_poll_interval : ℚ := 3.0
  flow_max_poll_attempts : Nat := 200
  flow_max_retries : Nat := 3
  server_host : String := "0.0.0.0"
  server_port : Nat := 8000
  debug_enabled : Bool := false
  debug_log_requests : Bool := true
  debug_log_responses : Bool := true
  debug_mask_token : Bool := true
  proxy_enabled : Bool := false
  proxy_url : Option String := some ""
  generation_image_timeout : Nat := 300
  generation_video_timeout : Nat := 1500
  admin_error_ban_threshold : Nat := 3
  cache_enabled : Bool := false
  cache_timeout : Nat := 7200
  cache_base_url : Option String := some ""

/-- `Settings()` with no environment and no TOML file. -/
def defaults : Settings := {}

end ConfigModule

namespace SettingsModule

/-- `class Settings` of `src/core/settings.py` (upper-case field names).
The S3 credential fields (`S3_BUCKET_NAME`, ..., all defaulting to `None`)
are omitted: they exist only in this class and no claim touches them. -/
structure Settings where
  API_KEY : String := "han1234"
  ADMIN_USERNAME : String := "admin"
  ADMIN_PASSWORD : String := "admin"
  DATABASE_URL : Option String := none
  FLOW_LABS_BASE_URL : String := "https://labs.google/fx/api"
  FLOW_API_BASE_URL : String := "https://aisandbox-pa.googleapis.com/v1"
  FLOW_TIMEOUT : Nat := 120
  FLOW_POLL_INTERVAL : ℚ := 3.0
  FLOW_MAX_POLL_ATTEMPTS : Nat := 200
  FLOW_MAX_RETRIES : Nat := 3
  SERVER_HOST : String := "0.0.0.0"
  SERVER_PORT : Nat := 8000
  DEBUG_ENABLED : Bool := false
  DEBUG_LOG_REQUESTS : Bool := true
  DEBUG_LOG_RESPONSES : Bool := true
  DEBUG_MASK_TOKEN : Bool := true
  PROXY_ENABLED : Bool := false
  PROXY_URL : Option String := some ""
  GENERATION_IMAGE_TIMEOUT : Nat := 300
  GENERATION_VIDEO_TIMEOUT : Nat := 1500
  ADMIN_ERROR_BAN_THRESHOLD : Nat := 3
  CACHE_ENABLED : Bool := false
  CACHE_TIMEOUT : Nat := 7200
  CACHE_BASE_URL : Option String := some ""
  STORAGE_BACKEND : String := "local"

/-- `Settings()` with no environment and no TOML file. -/
def defaults : Settings := {}

end SettingsModule

/-- C6. With no environment variables and no TOML file, the two `Settings`
classes produce identical default values on every configuration key both
define: api key, admin credentials, flow URLs / timeouts / poll
parameters, server host and port, debug flags, proxy settings, generation
timeouts, error-ban threshold, and cache settings. -/
theorem settings_classes_default_equivalent :
    ConfigModule.defaults.api_key = SettingsModule.defaults.API_KEY ∧
    ConfigModule.defaults.admin_username = SettingsModule.defaults.ADMIN_USERNAME ∧
    ConfigModule.defaults.admin_password = SettingsModule.defaults.ADMIN_PASSWORD ∧
    ConfigModule.defaults.flow_labs_base_url = SettingsModule.defaults.FLOW_LABS_BASE_URL ∧
    ConfigModule.defaults.flow_api_base_url = SettingsModule.defaults.FLOW_API_BASE_URL ∧
    ConfigModule.defaults.flow_timeout = SettingsModule.defaults.FLOW_TIMEOUT ∧
    ConfigModule.defaults.flow_poll_interval = SettingsModule.defaults.FLOW_POLL_INTERVAL ∧
    ConfigModule.defaults.flow_max_poll_attempts = SettingsModule.defaults.FLOW_MAX_POLL_ATTEMPTS ∧
    ConfigModule.defaults.flow_max_retries = SettingsModule.defaults.FLOW_MAX_RETRIES ∧
    ConfigModule.defaults.server_host = SettingsModule.defaults.SERVER_HOST ∧
    ConfigModule.defaults.server_port = SettingsModule.defaults.SERVER_PORT ∧
    ConfigModule.defaults.debug_enabled = SettingsModule.defaults.DEBUG_ENABLED ∧
    ConfigModule.defaults.debug_log_requests = SettingsModule.defaults.DEBUG_LOG_REQUESTS ∧
    ConfigModule.defaults.debug_log_responses = SettingsModule.defaults.DEBUG_LOG_RESPONSES ∧
    ConfigModule.defaults.debug_mask_token = SettingsModule.defaults.DEBUG_MASK_TOKEN ∧
    ConfigModule.defaults.proxy_enabled = SettingsModule.defaults.PROXY_ENABLED ∧
    ConfigModule.defaults.proxy_url = SettingsModule.defaults.PROXY_URL ∧
    ConfigModule.defaults.generation_image_timeout = SettingsModule.defaults.GENERATION_IMAGE_TIMEOUT ∧
    ConfigModule.defaults.generation_video_timeout = SettingsModule.defaults.GENERATION_VIDEO_TIMEOUT ∧
    ConfigModule.defaults.admin_error_ban_threshold = SettingsModule.defaults.ADMIN_ERROR_BAN_THRESHOLD ∧
    ConfigModule.defaults.cache_enabled = SettingsModule.defaults.CACHE_ENABLED ∧
    ConfigModule.defaults.cache_timeout = SettingsModule.defaults.CACHE_TIMEOUT ∧
    ConfigModule.defaults.cache_base_url = SettingsModule.defaults.CACHE_BASE_URL := by
  exact ⟨rfl, rfl, rfl, rfl, rfl, rfl, rfl, rfl, rfl, rfl, rfl, rfl, rfl,
    rfl, rfl, rfl, rfl, rfl, rfl, rfl, rfl, rfl, rfl⟩

/-! ### Effective configuration values (`Config` in `src/core/config.py`,
`ProxyManager` in `src/services/proxy_manager.py`)

One runtime-overridable key is described by the three file-level inputs
pydantic resolves (canonical environment variable, TOML entry, field
default) plus the optional database override held in `Config._db_overrides`.
-/

/-- The inputs a single configuration key draws from. -/
structure KeyConfig (α : Type) where
  env : Option α
  toml : Option α
  dflt : α

/-- The value the pydantic `Settings` object carries for a key: the
source order is init > env > dotenv > TOML > default; init and dotenv are
not used here, so environment beats TOML beats the field default. -/
def settingsValue (kc : KeyConfig α) : α :=
  ((kc.env).orElse (fun _ => kc.toml)).getD kc.dflt

/-- `Config._is_locked(env_var)`: the canonical environment variable is
present in `os.environ`. -/
def isLocked (kc : KeyConfig α) : Bool :=
  kc.env.isSome

/-- The property pattern shared verbatim by `Config.api_key`,
`Config.admin_username`, `Config.admin_password`, `Config.debug_enabled`,
`Config.image_timeout`, `Config.video_timeout`, `Config.cache_enabled`,
`Config.cache_timeout` and `Config.cache_base_url`:
`if self._is_locked(ENV): return self.settings.x` else
`return self._db_overrides.get(x, self.settings.x)`. -/
def configProperty (kc : KeyConfig α) (dbOverride : Option α) : α :=
  if isLocked kc then settingsValue kc
  else dbOverride.getD (settingsValue kc)

/-- The precedence rule the spec adopts, written from its words:
environment > database-stored override > file default. -/
def specPrecedence (kc : KeyConfig α) (dbOverride : Option α) : α :=
  kc.env.getD (dbOverride.getD (kc.toml.getD kc.dflt))

theorem configProperty_eq_specPrecedence (kc : KeyConfig α)
    (dbOverride : Option α) :
    configProperty kc dbOverride = specPrecedence kc dbOverride := by
  cases henv : kc.env with
  | some v =>
    simp [configProperty, specPrecedence, isLocked, settingsValue, henv]
  | none =>
    cases dbOverride <;>
      simp [configProperty, specPrecedence, isLocked, settingsValue, henv,
        Option.orElse]

/-- Row of the `proxy_config` table (what `db.get_proxy_config()`
returns). -/
structure ProxyConfigRow where
  enabled : Bool
  proxy_url : Option String

/-- Python truthiness of an `Optional[str]`: `None` and `""` are falsy. -/
def truthyUrl (o : Option String) : Option String :=
  match o with
  | some u => if u = "" then none else some u
  | none => none

/-- `ProxyManager.get_proxy_url`: first returns the settings-level
(env/TOML) proxy URL whenever the settings-level proxy is enabled with a
non-empty URL; otherwise, if either proxy environment variable is set, it
re-checks the same (now necessarily falsy) condition and yields `None`;
only when no proxy environment variable is set does it consult the
database row. -/
def get_proxy_url (en : KeyConfig Bool) (url : KeyConfig String)
    (db : Option ProxyConfigRow) : Option String :=
  if settingsValue en ∧ settingsValue url ≠ "" then some (settingsValue url)
  else if isLocked en ∨ isLocked url then
    if settingsValue en ∧ settingsValue url ≠ "" then some (settingsValue url)
    else none
  else
    match db with
    | some c => if c.enabled then truthyUrl c.proxy_url else none
    | none => none

/-- The spec's precedence (environment > database > file), applied to the
proxy pair: resolve `enabled` and `url` each by that order, then return
the URL when the resolved proxy is enabled and non-empty. -/
def specProxyUrl (en : KeyConfig Bool) (url : KeyConfig String)
    (db : Option ProxyConfigRow) : Option String :=
  let effEnabled := en.env.getD ((db.map (·.enabled)).getD (en.toml.getD en.dflt))
  let effUrl := url.env.getD ((db.bind (·.proxy_url)).getD (url.toml.getD url.dflt))
  if effEnabled ∧ effUrl ≠ "" then some effUrl else none

/-- C5 counterexample. No proxy environment variable is set, the TOML
file enables the proxy with URL `http://toml:8080`, and the database
override stores an enabled proxy at `http://db:8080`.  The claimed
precedence (environment > database > file) demands the database URL, but
`ProxyManager.get_proxy_url` returns the TOML URL: the file default wins
over the database override. -/
theorem proxy_precedence_counterexample :
    get_proxy_url ⟨none, some true, false⟩ ⟨none, some "http://toml:8080", ""⟩
        (some ⟨true, some "http://db:8080"⟩) = some "http://toml:8080" ∧
    specProxyUrl ⟨none, some true, false⟩ ⟨none, some "http://toml:8080", ""⟩
        (some ⟨true, some "http://db:8080"⟩) = some "http://db:8080" := by
  constructor <;> rfl

/-- C5 (amended). The precedence environment > database override > file
default holds for every value read through a `Config` property — api key,
admin username and password, debug flag, image and video generation
timeouts, and the cache enabled/timeout/base-URL settings.  For the proxy
it holds only partially: when both proxy environment variables are set,
`get_proxy_url` is decided by the environment alone, and when neither is
set and the settings-level (file) proxy is disabled or has an empty URL,
the database override governs; but a file-level proxy that is enabled
with a non-empty URL wins over any database override (see the
counterexample). -/
theorem config_precedence :
    (∀ (α : Type) (kc : KeyConfig α) (dbOverride : Option α),
      configProperty kc dbOverride = specPrecedence kc dbOverride) ∧
    (∀ (en : KeyConfig Bool) (url : KeyConfig String)
        (db : Option ProxyConfigRow) (eb : Bool) (u : String),
      en.env = some eb → url.env = some u →
      get_proxy_url en url db =
        (if eb ∧ u ≠ "" then some u else none)) ∧
    (∀ (en : KeyConfig Bool) (url : KeyConfig String)
        (db : Option ProxyConfigRow),
      en.env = none → url.env = none →
      ¬ (settingsValue en = true ∧ settingsValue url ≠ "") →
      get_proxy_url en url db =
        (match db with
         | some c => if c.enabled then truthyUrl c.proxy_url else none
         | none => none)) := by
  refine ⟨fun α kc dbOverride => configProperty_eq_specPrecedence kc dbOverride,
    ?_, ?_⟩
  · intro en url db eb u hen hurl
    have h1 : settingsValue en = eb := by simp [settingsValue, hen]
    have h2 : settingsValue url = u := by simp [settingsValue, hurl]
    have hlock : isLocked en = true := by simp [isLocked, hen]
    unfold get_proxy_url
    rw [h1, h2]
    by_cases hcond : eb = true ∧ u ≠ ""
    · simp [hcond.1, hcond.2]
    · simp [hcond, hlock]
  · intro en url db hen hurl hoff
    have hlock1 : isLocked en = false := by simp [isLocked, hen]
    have hlock2 : isLocked url = false := by simp [isLocked, hurl]
    unfold get_proxy_url
    rw [if_neg (by simpa using hoff), if_neg (by simp [hlock1, hlock2])]

/-- Witness for the amended C5 theorem: an environment-set debug flag wins
over a database override; with no proxy environment and the file proxy
disabled, the database proxy URL is served. -/
theorem config_precedence_witness :
    configProperty (⟨some true, some false, false⟩ : KeyConfig Bool)
        (some false) = specPrecedence ⟨some true, some false, false⟩ (some false) ∧
    get_proxy_url ⟨none, none, false⟩ ⟨none, none, ""⟩
        (some ⟨true, some "http://db:8080"⟩) = some "http://db:8080" := by
  constructor
  · exact config_precedence.1 Bool ⟨some true, some false, false⟩ (some false)
  · rw [config_precedence.2.2 ⟨none, none, false⟩ ⟨none, none, ""⟩
      (some ⟨true, some "http://db:8080"⟩) rfl rfl (by decide)]
    rfl

/-! ### MD5 (`hashlib.md5` as used by `FileCache._generate_cache_filename`)

A byte is a `Nat` below 256; words are `Nat` with arithmetic taken modulo
`2 ^ 32`.  The tables are the RFC 1321 constants
(`K[i] = floor(abs(sin(i + 1)) * 2^32)` and the per-round shift
amounts). -/

def md5K : List Nat := [
  3614090360, 3905402710, 606105819, 3250441966, 4118548399, 1200080426, 2821735955, 4249261313,
  1770035416, 2336552879, 4294925233, 2304563134, 1804603682, 4254626195, 2792965006, 1236535329,
  4129170786, 3225465664, 643717713, 3921069994, 3593408605, 38016083, 3634488961, 3889429448,
  568446438, 3275163606, 4107603335, 1163531501, 2850285829, 4243563512, 1735328473, 2368359562,
  4294588738, 2272392833, 1839030562, 4259657740, 2763975236, 1272893353, 4139469664, 3200236656,
  681279174, 3936430074, 3572445317, 76029189, 3654602809, 3873151461, 530742520, 3299628645,
  4096336452, 1126891415, 2878612391, 4237533241, 1700485571, 2399980690, 4293915773, 2240044497,
  1873313359, 4264355552, 2734768916, 1309151649, 4149444226, 3174756917, 718787259, 3951481745]

def md5S : List Nat := [
  7, 12, 17, 22, 7, 12, 17, 22,
  7, 12, 17, 22, 7, 12, 17, 22,
  5, 9, 14, 20, 5, 9, 14, 20,
  5, 9, 14, 20, 5, 9, 14, 20,
  4, 11, 16, 23, 4, 11, 16, 23,
  4, 11, 16, 23, 4, 11, 16, 23,
  6, 10, 15, 21, 6, 10, 15, 21,
  6, 10, 15, 21, 6, 10, 15, 21]

/-- 32-bit left rotation. -/
def rotl32 (x n : Nat) : Nat :=
  ((x <<< n) ||| (x >>> (32 - n))) % 4294967296

/-- Bitwise complement on 32 bits. -/
def not32 (x : Nat) : Nat :=
  x ^^^ 4294967295

/-- Little-endian value of a byte list. -/
def leWord (bs : List Nat) : Nat :=
  bs.foldr (fun b acc => acc * 256 + b) 0

/-- The `g`-th little-endian 32-bit word of a 64-byte chunk. -/
def wordAt (chunk : List Nat) (g : Nat) : Nat :=
  leWord ((chunk.drop (4 * g)).take 4)

/-- Little-endian byte representation of `x`, `n` bytes wide. -/
def leBytes (n x : Nat) : List Nat :=
  (List.range n).map (fun i => (x >>> (8 * i)) % 256)

/-- One of the 64 MD5 rounds, acting on the working registers. -/
def md5Step (chunk : List Nat) (st : Nat × Nat × Nat × Nat) (i : Nat) :
    Nat × Nat × Nat × Nat :=
  let (A, B, C, D) := st
  let Fg : Nat × Nat :=
    if i < 16 then ((B &&& C) ||| (not32 B &&& D), i)
    else if i < 32 then ((D &&& B) ||| (not32 D &&& C), (5 * i + 1) % 16)
    else if i < 48 then (B ^^^ C ^^^ D, (3 * i + 5) % 16)
    else (C ^^^ (B ||| not32 D), (7 * i) % 16)
  let Fv := (Fg.1 + A + md5K.getD i 0 + wordAt chunk Fg.2) % 4294967296
  (D, (B + rotl32 Fv (md5S.getD i 0)) % 4294967296, B, C)

/-- Process one 64-byte chunk, updating the four hash registers. -/
def md5Chunk (h : Nat × Nat × Nat × Nat) (chunk : List Nat) :
    Nat × Nat × Nat × Nat :=
  let (A, B, C, D) := (List.range 64).foldl (md5Step chunk) h
  ((h.1 + A) % 4294967296, (h.2.1 + B) % 4294967296,
   (h.2.2.1 + C) % 4294967296, (h.2.2.2 + D) % 4294967296)

/-- Fold the chunk function over consecutive 64-byte slices.  The first
argument is fuel bounding the number of chunks (each chunk consumes 64
bytes, so any fuel at least the byte length suffices); structural
recursion on it keeps the definition kernel-reducible. -/
def md5Blocks (h : Nat × Nat × Nat × Nat) : Nat → List Nat → Nat × Nat × Nat × Nat
  | _, [] => h
  | 0, _ => h
  | fuel + 1, l => md5Blocks (md5Chunk h (l.take 64)) fuel (l.drop 64)

/-- MD5 padding: a 0x80 byte, zeros to 56 mod 64, then the bit length as
a 64-bit little-endian quantity. -/
def md5Pad (msg : List Nat) : List Nat :=
  msg ++ [128] ++ List.replicate ((119 - msg.length % 64) % 64) 0 ++
    leBytes 8 ((msg.length * 8) % 18446744073709551616)

/-- The 16 digest bytes of a byte message. -/
def md5Bytes (msg : List Nat) : List Nat :=
  let padded := md5Pad msg
  let h := md5Blocks (1732584193, 4023233417, 2562383102, 271733878)
    padded.length padded
  leBytes 4 h.1 ++ leBytes 4 h.2.1 ++ leBytes 4 h.2.2.1 ++ leBytes 4 h.2.2.2

/-- Lower-case hex digit. -/
def hexDigit (n : Nat) : Char :=
  if n < 10 then Char.ofNat (48 + n) else Char.ofNat (87 + n)

/-- Two lower-case hex digits of a byte. -/
def byteToHex (b : Nat) : String :=
  String.mk [hexDigit (b / 16), hexDigit (b % 16)]

/-- UTF-8 encoding of one code point (Python `str.encode()`). -/
def utf8EncodeChar (c : Nat) : List Nat :=
  if c < 128 then [c]
  else if c < 2048 then [192 + c / 64, 128 + c % 64]
  else if c < 65536 then [224 + c / 4096, 128 + (c / 64) % 64, 128 + c % 64]
  else [240 + c / 262144, 128 + (c / 4096) % 64, 128 + (c / 64) % 64, 128 + c % 64]

/-- UTF-8 bytes of a string. -/
def strBytes (s : String) : List Nat :=
  s.data.foldr (fun ch acc => utf8EncodeChar ch.toNat ++ acc) []

/-- `hashlib.md5(url.encode()).hexdigest()`. -/
def md5HexOfString (s : String) : String :=
  String.join ((md5Bytes (strBytes s)).map byteToHex)

/-- Validation of the embedding against RFC 1321's test vector. -/
theorem md5HexOfString_abc :
    md5HexOfString "abc" = "900150983cd24fb0d6963f7d28e17f72" := by
  rfl

/-! ### File cache (`src/services/file_cache.py`,
`src/services/storage_backends.py`)

The storage backend is modelled after `LocalStorageBackend`: a set of
stored object keys plus the base URL from which `get_url` builds public
URLs.  The network is an oracle mapping a URL to the outcome of the HTTP
GET `download_and_cache` performs. -/

/-- `FileCache._generate_cache_filename`. -/
def generate_cache_filename (url media_type : String) : String :=
  let url_hash := md5HexOfString url
  let ext :=
    if media_type = "video" then ".mp4"
    else if media_type = "image" then ".jpg"
    else ""
  url_hash ++ ext

/-- `LocalStorageBackend`: stored keys and the configured base URL. -/
structure LocalStorageBackend where
  base_url : String
  files : List String
  deriving Repr, DecidableEq

/-- `LocalStorageBackend.exists`. -/
def LocalStorageBackend.existsFile (b : LocalStorageBackend)
    (filename : String) : Bool :=
  b.files.contains filename

/-- `LocalStorageBackend.get_url`. -/
def LocalStorageBackend.get_url (b : LocalStorageBackend)
    (filename : String) : String :=
  b.base_url ++ "/tmp/" ++ filename

/-- `LocalStorageBackend.save`: write the object, return its public URL. -/
def LocalStorageBackend.save (b : LocalStorageBackend) (filename : String) :
    LocalStorageBackend × String :=
  ({ b with files := filename :: b.files }, b.get_url filename)

/-- Outcome of the HTTP GET issued inside `download_and_cache`. -/
inductive HttpResult where
  | response (status : Nat) (content : List Nat)
  | netError (msg : String)

/-- Result of one `download_and_cache` call: the raised exception or the
returned public URL, the backend afterwards, and whether a download was
attempted. -/
structure CacheCallResult where
  result : Except String String
  backend : LocalStorageBackend
  downloaded : Bool
  deriving Repr

/-- `FileCache.download_and_cache`: compute the cache filename; on a
backend hit return the existing object's URL without downloading;
otherwise download (proxy selection does not alter the oracle's answer),
raise on a network error or a non-200 status, and on success save the
content and return the public URL. -/
def download_and_cache (net : String → HttpResult) (url media_type : String)
    (b : LocalStorageBackend) : CacheCallResult :=
  let filename := generate_cache_filename url media_type
  if b.existsFile filename then
    ⟨.ok (b.get_url filename), b, false⟩
  else
    match net url with
    | .netError msg =>
      ⟨.error ("Failed to cache file: " ++ msg), b, true⟩
    | .response status _ =>
      if status ≠ 200 then
        ⟨.error ("Failed to cache file: Download failed: HTTP " ++
          toString status), b, true⟩
      else
        let saved := b.save filename
        ⟨.ok saved.2, saved.1, true⟩

/-- C9. The cache filename is the MD5 hex digest of the URL plus `.mp4`
for video, `.jpg` for image and no extension otherwise — a pure function
of `(url, media_type)`, so any two `download_and_cache` calls with the
same pair address the same backend object: each call touches at most that
one key, and a call whose object already exists returns that object's URL
with no download and no backend change. -/
theorem cache_filename_addresses_one_object (net : String → HttpResult)
    (url media_type : String) (b : LocalStorageBackend)
    (hhit : b.existsFile (generate_cache_filename url media_type) = true) :
    (∀ u mt, generate_cache_filename u mt =
      md5HexOfString u ++
        (if mt = "video" then ".mp4" else if mt = "image" then ".jpg" else "")) ∧
    (∀ (net' : String → HttpResult) (b' : LocalStorageBackend),
      (download_and_cache net' url media_type b').backend.files = b'.files ∨
      (download_and_cache net' url media_type b').backend.files =
        generate_cache_filename url media_type :: b'.files) ∧
    download_and_cache net url media_type b =
      ⟨.ok (b.get_url (generate_cache_filename url media_type)), b, false⟩ := by
  refine ⟨fun u mt => rfl, ?_, ?_⟩
  · intro net' b'
    rw [download_and_cache]
    by_cases h : b'.existsFile (generate_cache_filename url media_type) = true
    · rw [if_pos h]
      exact Or.inl rfl
    · rw [if_neg h]
      cases net' url with
      | netError msg => exact Or.inl rfl
      | response status content =>
        dsimp only
        by_cases hs : status ≠ 200
        · rw [if_pos hs]
          exact Or.inl rfl
        · rw [if_neg hs]
          exact Or.inr rfl
  · rw [download_and_cache, if_pos hhit]

/-- Witness for the C9 theorem: a backend already holding the video object
for a concrete URL serves it back as a cache hit. -/
theorem cache_filename_addresses_one_object_witness :
    download_and_cache (fun _ => .netError "offline") "http://example.com/a.mp4"
        "video"
        ⟨"http://cdn", [generate_cache_filename "http://example.com/a.mp4" "video"]⟩ =
      ⟨.ok ("http://cdn/tmp/" ++
          generate_cache_filename "http://example.com/a.mp4" "video"),
        ⟨"http://cdn", [generate_cache_filename "http://example.com/a.mp4" "video"]⟩,
        false⟩ :=
  (cache_filename_addresses_one_object (fun _ => .netError "offline")
    "http://example.com/a.mp4" "video"
    ⟨"http://cdn", [generate_cache_filename "http://example.com/a.mp4" "video"]⟩
    (by simp [LocalStorageBackend.existsFile])).2.2

/-! ### Success finalization (Generation Orchestrator)

`src/main.py` imports `services.generation_handler`, but that module is
not in the source tree; its success path is modelled from the spec. -/

/-- View of a task a caller receives: terminal status and result URLs. -/
structure GenerationTaskView where
  status : String
  result_urls : List String
  deriving Repr, DecidableEq

/-- The HTTP GET for this URL cannot yield a 200 response, so the
download inside `download_and_cache` raises. -/
def downloadFails (net : String → HttpResult) (url : String) : Prop :=
  match net url with
  | .netError _ => True
  | .response status _ => status ≠ 200

/-- Modelled from the spec: the per-URL caching step of the Generation
Orchestrator's success finalization (the `generation_handler` module is
absent from the source tree).  Spec §4.4 step 5 / §7 `CacheFailure`: each
result URL is handed to the File Cache for a durable URL; a File Cache
failure is logged and the caller receives the original upstream URL as
fallback. -/
def cacheUrls (net : String → HttpResult) (media_type : String) :
    LocalStorageBackend → List String → List String × LocalStorageBackend
  | b, [] => ([], b)
  | b, url :: rest =>
    match download_and_cache net url media_type b with
    | ⟨.ok durable, b', _⟩ =>
      let tail := cacheUrls net media_type b' rest
      (durable :: tail.1, tail.2)
    | ⟨.error _, b', _⟩ =>
      let tail := cacheUrls net media_type b' rest
      (url :: tail.1, tail.2)

/-- Modelled from the spec: finalization of a task that reached the
successful terminal state — the status is left untouched and only the
result URLs are exchanged for durable ones where caching succeeded. -/
def finalize_success (net : String → HttpResult) (media_type : String)
    (b : LocalStorageBackend) (t : GenerationTaskView) :
    GenerationTaskView × LocalStorageBackend :=
  let cached := cacheUrls net media_type b t.result_urls
  (⟨t.status, cached.1⟩, cached.2)

theorem download_and_cache_error_of_fails (net : String → HttpResult)
    (url media_type : String) (b : LocalStorageBackend)
    (hmiss : b.existsFile (generate_cache_filename url media_type) = false)
    (hfail : downloadFails net url) :
    ∃ msg, download_and_cache net url media_type b =
      ⟨.error msg, b, true⟩ := by
  rw [download_and_cache, if_neg (by simp [hmiss])]
  unfold downloadFails at hfail
  cases hnet : net url with
  | netError msg => exact ⟨"Failed to cache file: " ++ msg, rfl⟩
  | response status content =>
    rw [hnet] at hfail
    exact ⟨"Failed to cache file: Download failed: HTTP " ++ toString status,
      by dsimp only; rw [if_pos hfail]⟩

theorem cacheUrls_all_fail (net : String → HttpResult) (media_type : String)
    (urls : List String) (b : LocalStorageBackend)
    (hmiss : ∀ url ∈ urls,
      b.existsFile (generate_cache_filename url media_type) = false)
    (hfail : ∀ url ∈ urls, downloadFails net url) :
    cacheUrls net media_type b urls = (urls, b) := by
  induction urls with
  | nil => rfl
  | cons url rest ih =>
    obtain ⟨msg, herr⟩ := download_and_cache_error_of_fails net url media_type b
      (hmiss url (List.mem_cons_self _ _)) (hfail url (List.mem_cons_self _ _))
    rw [cacheUrls, herr]
    dsimp only
    rw [ih (fun u hu => hmiss u (List.mem_cons_of_mem _ hu))
      (fun u hu => hfail u (List.mem_cons_of_mem _ hu))]

/-- C7 (spec-modelled orchestration over the embedded File Cache).  For a
task in the successful terminal state whose result URLs are not yet
cached, a File Cache failure while persisting them (`download_and_cache`
raising, here because no URL can be fetched) leaves the task succeeded
and hands the caller the original upstream URLs; and under those
conditions `download_and_cache` does raise, leaving the backend
untouched. -/
theorem cache_failure_keeps_task_succeeded (net : String → HttpResult)
    (media_type : String) (b : LocalStorageBackend) (t : GenerationTaskView)
    (hsucc : t.status = "succeeded")
    (hmiss : ∀ url ∈ t.result_urls,
      b.existsFile (generate_cache_filename url media_type) = false)
    (hfail : ∀ url ∈ t.result_urls, downloadFails net url) :
    (finalize_success net media_type b t).1.status = "succeeded" ∧
    (finalize_success net media_type b t).1.result_urls = t.result_urls ∧
    (∀ url ∈ t.result_urls, ∃ msg,
      download_and_cache net url media_type b = ⟨.error msg, b, true⟩) := by
  refine ⟨hsucc ▸ rfl, ?_, fun url hu =>
    download_and_cache_error_of_fails net url media_type b
      (hmiss url hu) (hfail url hu)⟩
  unfold finalize_success
  rw [cacheUrls_all_fail net media_type t.result_urls b hmiss hfail]

/-- Witness for the C7 theorem: a succeeded task with one upstream URL,
an empty cache and an unreachable network keeps its status and URL. -/
theorem cache_failure_keeps_task_succeeded_witness :
    (finalize_success (fun _ => .netError "connection refused") "video"
        ⟨"http://cdn", []⟩ ⟨"succeeded", ["http://upstream/v.mp4"]⟩).1 =
      ⟨"succeeded", ["http://upstream/v.mp4"]⟩ := by
  have h := cache_failure_keeps_task_succeeded
    (fun _ => .netError "connection refused") "video" ⟨"http://cdn", []⟩
    ⟨"succeeded", ["http://upstream/v.mp4"]⟩ rfl
    (by intro url hu; rfl) (by intro url hu; trivial)
  exact congrArg₂ GenerationTaskView.mk h.1 h.2.1

/-! ### Concurrency Admission Controller

`src/main.py` imports `services.concurrency_manager`, but that module is
not in the source tree; it is modelled from spec §4.2. -/

/-- Media types, each with an independent concurrency ceiling (§ glossary). -/
inductive MediaType where
  | image
  | video
  deriving Repr, DecidableEq

/-- Modelled from the spec: the Admission Controller's state (the
`concurrency_manager` module is absent from the source tree) — the live
in-flight count per (token id, media type). -/
structure AdmissionState where
  inFlight : Nat → MediaType → Nat

/-- All counters zero (`initialize` zeroes in-flight counters, §4.1). -/
def initAdmission : AdmissionState :=
  ⟨fun _ _ => 0⟩

/-- Increment one (token, media type) counter. -/
def AdmissionState.bump (st : AdmissionState) (t : Nat) (m : MediaType) :
    AdmissionState :=
  ⟨fun t' m' => if t' = t ∧ m' = m then st.inFlight t m + 1 else st.inFlight t' m'⟩

/-- Decrement one (token, media type) counter. -/
def AdmissionState.drop (st : AdmissionState) (t : Nat) (m : MediaType) :
    AdmissionState :=
  ⟨fun t' m' => if t' = t ∧ m' = m then st.inFlight t m - 1 else st.inFlight t' m'⟩

/-- Modelled from the spec: `tryAcquire(tokenId, mediaType)` against a
given ceiling (`none` is the "unlimited" sentinel; the tokens table
encodes it as `-1`): atomically compare the in-flight count with the
ceiling; grant and increment when under it or unlimited, deny without
blocking otherwise. -/
def tryAcquireCeil (c : Option Nat) (st : AdmissionState) (t : Nat)
    (m : MediaType) : Bool × AdmissionState :=
  match c with
  | none => (true, st.bump t m)
  | some c => if st.inFlight t m < c then (true, st.bump t m) else (false, st)

/-- Modelled from the spec: `tryAcquire` with the ceiling looked up per
(token, media type). -/
def tryAcquire (ceiling : Nat → MediaType → Option Nat) (st : AdmissionState)
    (t : Nat) (m : MediaType) : Bool × AdmissionState :=
  tryAcquireCeil (ceiling t m) st t m

/-- Modelled from the spec: `release(tokenId, mediaType)` decrements the
in-flight count; a release with no outstanding slot is flagged as an
error (never silent), leaving the count at zero. -/
def release (st : AdmissionState) (t : Nat) (m : MediaType) :
    Except String AdmissionState :=
  if st.inFlight t m = 0 then .error "release without matching acquire"
  else .ok (st.drop t m)

/-- One call into the Admission Controller. -/
inductive AdmOp where
  | acquire (t : Nat) (m : MediaType)
  | release (t : Nat) (m : MediaType)
  deriving Repr, DecidableEq

/-- Run a serialized history of admission calls (the controller's
operations are atomic, §4.2/§5), tracking, for the observed pair
`(t, m)`: the final state, the number of `tryAcquire` calls that returned
granted, and the number of `release` calls. -/
def runAdmission (ceiling : Nat → MediaType → Option Nat) (t : Nat)
    (m : MediaType) : AdmissionState → List AdmOp → AdmissionState × Nat × Nat
  | st, [] => (st, 0, 0)
  | st, .acquire t' m' :: rest =>
    let r := tryAcquire ceiling st t' m'
    let tail := runAdmission ceiling t m r.2 rest
    (tail.1, (if r.1 ∧ t' = t ∧ m' = m then 1 else 0) + tail.2.1, tail.2.2)
  | st, .release t' m' :: rest =>
    let st' := match release st t' m' with | .ok s => s | .error _ => st
    let tail := runAdmission ceiling t m st' rest
    (tail.1, tail.2.1, (if t' = t ∧ m' = m then 1 else 0) + tail.2.2)

theorem inFlight_bump_other (st : AdmissionState) (t t' : Nat)
    (m m' : MediaType) (h : ¬(t = t' ∧ m = m')) :
    (st.bump t' m').inFlight t m = st.inFlight t m := by
  simp only [AdmissionState.bump, if_neg h]

theorem inFlight_drop_other (st : AdmissionState) (t t' : Nat)
    (m m' : MediaType) (h : ¬(t = t' ∧ m = m')) :
    (st.drop t' m').inFlight t m = st.inFlight t m := by
  simp only [AdmissionState.drop, if_neg h]

theorem runAdmission_invariant (ceiling : Nat → MediaType → Option Nat)
    (t : Nat) (m : MediaType) (c : Nat) (hc : ceiling t m = some c)
    (tr : List AdmOp) (st : AdmissionState) (hst : st.inFlight t m ≤ c) :
    (runAdmission ceiling t m st tr).1.inFlight t m ≤ c ∧
    ((runAdmission ceiling t m st tr).2.1 : Int) -
        (runAdmission ceiling t m st tr).2.2 ≤
      (runAdmission ceiling t m st tr).1.inFlight t m - st.inFlight t m := by
  induction tr generalizing st with
  | nil => simpa [runAdmission] using hst
  | cons op rest ih =>
    cases op with
    | acquire t' m' =>
      by_cases hk : t' = t ∧ m' = m
      · obtain ⟨rfl, rfl⟩ := hk
        by_cases hlt : st.inFlight t' m' < c
        · have hbump : (st.bump t' m').inFlight t' m' = st.inFlight t' m' + 1 := by
            simp [AdmissionState.bump]
          have hih := ih (st.bump t' m') (by rw [hbump]; omega)
          rw [hbump] at hih
          simp only [runAdmission, tryAcquire, hc, tryAcquireCeil, if_pos hlt,
            and_self, if_true, true_and]
          refine ⟨hih.1, ?_⟩
          push_cast
          push_cast at hih
          omega
        · have hih := ih st hst
          simp only [runAdmission, tryAcquire, hc, tryAcquireCeil, if_neg hlt,
            false_and, if_false, Bool.false_eq_true]
          refine ⟨hih.1, ?_⟩
          push_cast
          push_cast at hih
          omega
      · have hne : ¬(t = t' ∧ m = m') := fun h => hk ⟨h.1.symm, h.2.symm⟩
        have hstep : (tryAcquire ceiling st t' m').2.inFlight t m =
            st.inFlight t m := by
          unfold tryAcquire
          cases hcc : ceiling t' m' with
          | none =>
            simp only [tryAcquireCeil]
            exact inFlight_bump_other st t t' m m' hne
          | some cc =>
            simp only [tryAcquireCeil]
            by_cases hlt : st.inFlight t' m' < cc
            · simp only [if_pos hlt]
              exact inFlight_bump_other st t t' m m' hne
            · simp only [if_neg hlt]
        have hih := ih (tryAcquire ceiling st t' m').2 (hstep ▸ hst)
        rw [hstep] at hih
        have hcond : ¬((tryAcquire ceiling st t' m').1 = true ∧ t' = t ∧ m' = m) :=
          fun h => hk h.2
        simp only [runAdmission, if_neg hcond]
        refine ⟨hih.1, ?_⟩
        push_cast
        omega
    | release t' m' =>
      have hrel : ∀ s₀ : AdmissionState,
          (match release s₀ t' m' with | .ok s => s | .error _ => s₀) =
            if s₀.inFlight t' m' = 0 then s₀ else s₀.drop t' m' := by
        intro s₀
        unfold release
        by_cases hz : s₀.inFlight t' m' = 0
        · rw [if_pos hz, if_pos hz]
        · rw [if_neg hz, if_neg hz]
      by_cases hk : t' = t ∧ m' = m
      · obtain ⟨rfl, rfl⟩ := hk
        by_cases hz : st.inFlight t' m' = 0
        · have hih := ih st hst
          simp only [runAdmission, hrel, if_pos hz, and_self, if_true]
          refine ⟨hih.1, ?_⟩
          push_cast
          push_cast at hih
          omega
        · have hdrop : (st.drop t' m').inFlight t' m' = st.inFlight t' m' - 1 := by
            simp [AdmissionState.drop]
          have hih := ih (st.drop t' m') (by rw [hdrop]; omega)
          rw [hdrop] at hih
          simp only [runAdmission, hrel, if_neg hz, and_self, if_true]
          refine ⟨hih.1, ?_⟩
          push_cast
          omega
      · have hne : ¬(t = t' ∧ m = m') := fun h => hk ⟨h.1.symm, h.2.symm⟩
        have hstep : (if st.inFlight t' m' = 0 then st else st.drop t' m').inFlight t m =
            st.inFlight t m := by
          by_cases hz : st.inFlight t' m' = 0
          · rw [if_pos hz]
          · rw [if_neg hz]
            exact inFlight_drop_other st t t' m m' hne
        have hih := ih (if st.inFlight t' m' = 0 then st else st.drop t' m')
          (hstep ▸ hst)
        rw [hstep] at hih
        simp only [runAdmission, hrel, if_neg hk]
        refine ⟨hih.1, ?_⟩
        push_cast
        omega

/-- C1 (spec-modelled Admission Controller).  Starting from zeroed
counters, after any serialized history of `tryAcquire` / `release` calls,
for a pair (token, media type) whose configured ceiling is finite the
outstanding slots — `tryAcquire` grants minus `release` calls — never
exceed the ceiling; pairs whose ceiling is the unlimited sentinel are
exempt. -/
theorem admission_never_exceeds_ceiling (ceiling : Nat → MediaType → Option Nat)
    (t : Nat) (m : MediaType) (c : Nat) (hc : ceiling t m = some c)
    (tr : List AdmOp) :
    ((runAdmission ceiling t m initAdmission tr).2.1 : Int) -
        (runAdmission ceiling t m initAdmission tr).2.2 ≤ c ∧
    (runAdmission ceiling t m initAdmission tr).1.inFlight t m ≤ c := by
  have h := runAdmission_invariant ceiling t m c hc tr initAdmission
    (by simp [initAdmission])
  refine ⟨?_, h.1⟩
  have h0 : initAdmission.inFlight t m = 0 := rfl
  rw [h0] at h
  have h1 := h.1
  have h2 := h.2
  omega

/-- Witness for the C1 theorem: ceiling 2, three acquires then one
release on the same pair — two grants, net outstanding 1 ≤ 2. -/
theorem admission_never_exceeds_ceiling_witness :
    ((runAdmission (fun _ _ => some 2) 1 .image initAdmission
        [.acquire 1 .image, .acquire 1 .image, .acquire 1 .image,
          .release 1 .image]).2.1 : Int) -
      (runAdmission (fun _ _ => some 2) 1 .image initAdmission
        [.acquire 1 .image, .acquire 1 .image, .acquire 1 .image,
          .release 1 .image]).2.2 ≤ 2 :=
  (admission_never_exceeds_ceiling (fun _ _ => some 2) 1 .image 2 rfl
    [.acquire 1 .image, .acquire 1 .image, .acquire 1 .image,
      .release 1 .image]).1

/-! ### Load Balancer

`src/main.py` imports `services.load_balancer`, but that module is not in
the source tree; it is modelled from spec §4.3 over the Registry view of
the `tokens` table. -/

/-- Registry view of one token: the administrative and health fields the
Load Balancer consults (`tokens.is_active`, the per-media concurrency
ceilings with `none` for the `-1` "unlimited" sentinel, `last_used_at`)
together with `token_stats.consecutive_error_count`. -/
structure Token where
  id : Nat
  is_active : Bool
  consecutive_error_count : Nat
  image_concurrency : Option Nat
  video_concurrency : Option Nat
  last_used_at : Option Nat
  deriving Repr, DecidableEq

/-- The configured ceiling of a token for a media type. -/
def ceilingOf (tok : Token) (m : MediaType) : Option Nat :=
  match m with
  | .image => tok.image_concurrency
  | .video => tok.video_concurrency

/-- Modelled from the spec: a token is eligible for new work iff it is
active, not banned (`consecutive_error_count` below the configured ban
threshold) and has at least one free capacity slot for the requested
media type (always true under the unlimited sentinel). -/
def eligible (threshold : Nat) (st : AdmissionState) (m : MediaType)
    (tok : Token) : Bool :=
  tok.is_active && decide (tok.consecutive_error_count < threshold) &&
    (match ceilingOf tok m with
     | none => true
     | some c => decide (st.inFlight tok.id m < c))

/-- Current load of a token as the fraction numerator/denominator
(in-flight over ceiling; unlimited tokens rank as load 0). -/
def loadNumDen (st : AdmissionState) (m : MediaType) (tok : Token) :
    Nat × Nat :=
  match ceilingOf tok m with
  | none => (0, 1)
  | some c => (st.inFlight tok.id m, c)

/-- `last_used_at` for fairness tie-breaking; a token never used counts
as oldest. -/
def lastUsedKey (tok : Token) : Nat :=
  tok.last_used_at.getD 0

/-- Modelled from the spec: §4.3 candidate ranking — lowest load ratio
first (compared by cross-multiplication to stay in integers), ties broken
by oldest `last_used_at`. -/
def rankLE (st : AdmissionState) (m : MediaType) (a b : Token) : Bool :=
  let ra := loadNumDen st m a
  let rb := loadNumDen st m b
  if ra.1 * rb.2 = rb.1 * ra.2 then decide (lastUsedKey a ≤ lastUsedKey b)
  else decide (ra.1 * rb.2 < rb.1 * ra.2)

/-- Modelled from the spec: walk the ranked candidates, attempting
`tryAcquire` on each; a denial (a concurrent race emptied the last slot)
falls through to the next candidate; an exhausted list means "no
capacity". -/
def attemptCandidates (st : AdmissionState) (m : MediaType) :
    List Token → Option (Token × AdmissionState)
  | [] => none
  | tok :: rest =>
    let r := tryAcquireCeil (ceilingOf tok m) st tok.id m
    if r.1 then some (tok, r.2) else attemptCandidates st m rest

/-- Modelled from the spec: one Load Balancer selection — take the
Registry snapshot of tokens eligible for the media type, rank it, and
attempt acquisition down the ranking.  (`markUsed` on the winner only
touches `last_used_at` and is not needed by any claim.) -/
def selectToken (threshold : Nat) (st : AdmissionState) (m : MediaType)
    (tokens : List Token) : Option (Token × AdmissionState) :=
  attemptCandidates st m
    ((tokens.filter (eligible threshold st m)).mergeSort (rankLE st m))

theorem attemptCandidates_mem (st : AdmissionState) (m : MediaType)
    (candidates : List Token) (tok : Token) (st' : AdmissionState)
    (h : attemptCandidates st m candidates = some (tok, st')) :
    tok ∈ candidates := by
  induction candidates with
  | nil => simp [attemptCandidates] at h
  | cons hd rest ih =>
    rw [attemptCandidates] at h
    by_cases hg : (tryAcquireCeil (ceilingOf hd m) st hd.id m).1 = true
    · rw [if_pos hg] at h
      obtain ⟨rfl, -⟩ : hd = tok ∧ _ := by
        injection h with h
        injection h with h1 h2
        exact ⟨h1, h2⟩
      exact List.mem_cons_self _ _
    · rw [if_neg hg] at h
      exact List.mem_cons_of_mem _ (ih h)

/-- C2 (spec-modelled Load Balancer).  Whatever token a selection returns
is active and not banned: it came from the eligibility snapshot, which
filters on `is_active` and on the consecutive error count being below the
ban threshold — so a banned or inactive token is never returned, no
matter how demand compares to pool capacity. -/
theorem selection_returns_only_eligible (threshold : Nat)
    (st : AdmissionState) (m : MediaType) (tokens : List Token)
    (tok : Token) (st' : AdmissionState)
    (h : selectToken threshold st m tokens = some (tok, st')) :
    tok.is_active = true ∧ tok.consecutive_error_count < threshold := by
  have hmem := attemptCandidates_mem st m _ tok st' h
  have hmem' : tok ∈ tokens.filter (eligible threshold st m) :=
    (List.mergeSort_perm _ (rankLE st m)).mem_iff.mp hmem
  have helig : eligible threshold st m tok = true :=
    List.of_mem_filter hmem'
  unfold eligible at helig
  simp only [Bool.and_eq_true, decide_eq_true_eq] at helig
  exact ⟨helig.1.1, helig.1.2⟩

/-- Witness for the C2 theorem: from a pool holding one banned token and
one idle active token, selection returns the active one (ban threshold 3,
empty admission state). -/
theorem selection_returns_only_eligible_witness :
    (⟨2, true, 0, some 2, some 1, none⟩ : Token).is_active = true ∧
    (⟨2, true, 0, some 2, some 1, none⟩ : Token).consecutive_error_count < 3 :=
  selection_returns_only_eligible 3 initAdmission .image
    [⟨1, true, 5, some 2, some 1, none⟩, ⟨2, true, 0, some 2, some 1, none⟩]
    ⟨2, true, 0, some 2, some 1, none⟩
    ((initAdmission.bump 2 .image))
    (by
      unfold selectToken
      have hfil : ([⟨1, true, 5, some 2, some 1, none⟩,
          ⟨2, true, 0, some 2, some 1, none⟩] : List Token).filter
            (eligible 3 initAdmission .image) =
          [⟨2, true, 0, some 2, some 1, none⟩] := by decide
      rw [hfil, List.mergeSort_singleton]
      rfl)

/-! ### Module initialization of `src/main.py`

The module body is embedded as the sequence of top-level statements from
line 116 (the database-backend dispatch) to line 148 (the `FastAPI(...)`
call), each abstracted to the one evaluation step that can fail: reading
an attribute of the `config` object, or referring to a module-level
name.  Python evaluates these in order and aborts at the first
exception. -/

/-- The attribute names an instance of `Config`
(`src/core/config.py`) carries: the two instance attributes set in
`__init__` plus every method, property and setter the class body
defines. -/
def configMembers : List String := [
  "__init__", "settings", "_db_overrides",
  "reload_config", "get_raw_config", "get_locked_status", "_is_locked",
  "admin_username", "set_admin_username_from_db",
  "admin_password", "set_admin_password_from_db",
  "api_key",
  "flow_labs_base_url", "flow_api_base_url", "flow_timeout",
  "flow_max_retries", "poll_interval", "max_poll_attempts",
  "server_host", "server_port",
  "debug_enabled", "set_debug_enabled",
  "debug_log_requests", "debug_log_responses", "debug_mask_token",
  "image_timeout", "set_image_timeout",
  "video_timeout", "set_video_timeout",
  "cache_enabled", "set_cache_enabled",
  "cache_timeout", "set_cache_timeout",
  "cache_base_url", "set_cache_base_url",
  "proxy_enabled", "proxy_url"]

/-- The module-level names bound in `src/main.py` before line 123: the
imports of lines 2-19 and the `lifespan` definition.  (`db` is also bound
by lines 116-121 when they complete.) -/
def mainModuleGlobals : List String := [
  "FastAPI", "HTMLResponse", "FileResponse", "StaticFiles",
  "CORSMiddleware", "asynccontextmanager", "Path", "os",
  "config", "SqliteAdapter", "PostgresAdapter", "FlowClient",
  "ProxyManager", "TokenManager", "LoadBalancer", "ConcurrencyManager",
  "GenerationHandler", "routes", "admin", "lifespan", "db"]

/-- One failure-relevant evaluation step of the module body. -/
inductive PyStmt where
  | readConfigAttr (attr : String)
  | callGlobal (name : String)
  | createApp
  deriving Repr, DecidableEq

/-- The exceptions those steps can raise. -/
inductive PyError where
  | attributeError (cls attr : String)
  | nameError (name : String)
  deriving Repr, DecidableEq

/-- Lines 116-148 of `src/main.py` in order: the `config.database_url`
read in the branch condition, the backend construction it guards, the
duplicated component wiring (including the two calls to the never-defined
`Database`), and finally the `FastAPI(...)` call. -/
def mainModuleStmts : List PyStmt := [
  .readConfigAttr "database_url",
  .callGlobal "PostgresAdapter",
  .callGlobal "SqliteAdapter",
  .callGlobal "Database",
  .callGlobal "ProxyManager",
  .callGlobal "FlowClient",
  .callGlobal "Database",
  .callGlobal "ProxyManager",
  .callGlobal "FlowClient",
  .callGlobal "TokenManager",
  .callGlobal "ConcurrencyManager",
  .callGlobal "LoadBalancer",
  .callGlobal "GenerationHandler",
  .createApp]

/-- Evaluate the statements in order, stopping at the first exception
(Python module-body semantics). -/
def runMainModule : List PyStmt → Except PyError Unit
  | [] => .ok ()
  | .readConfigAttr a :: rest =>
    if a ∈ configMembers then runMainModule rest
    else .error (.attributeError "Config" a)
  | .callGlobal n :: rest =>
    if n ∈ mainModuleGlobals then runMainModule rest
    else .error (.nameError n)
  | .createApp :: rest => runMainModule rest

/-- Whether the `FastAPI(...)` call is reached before an exception
aborts the module body. -/
def appCreated : List PyStmt → Bool
  | [] => false
  | .readConfigAttr a :: rest => a ∈ configMembers && appCreated rest
  | .callGlobal n :: rest => n ∈ mainModuleGlobals && appCreated rest
  | .createApp :: _ => true

/-- C10. Evaluating the module body of `src/main.py` raises before the
FastAPI app is created: `Config` defines no `database_url` attribute, so
line 116 raises `AttributeError` immediately; and even apart from that,
the wiring calls `Database`, a name the module never imports or defines —
the application as wired cannot start. -/
theorem main_module_cannot_start :
    runMainModule mainModuleStmts =
      .error (.attributeError "Config" "database_url") ∧
    appCreated mainModuleStmts = false ∧
    "database_url" ∉ configMembers ∧
    "Database" ∉ mainModuleGlobals := by
  refine ⟨rfl, by decide, by decide, by decide⟩

end Flow2API